import Mathlib

/-!
Verification development for the Gmail-Automation workflow core.

The definitions below are a shallow embedding of the graph execution
core of the repository:
  * `src/graph/state_types.py`   — the `AgentState` shared-state record;
  * `src/graph/nodes.py`         — `entry_node`, `task_router_node`,
    `process_inbox_node`, `daily_summary_node`;
  * `src/graph/build_graph.py`   — `build_app` (graph wiring) and the
    conditional router `route_by_task`.

External collaborators (the Groq LLM agent `gmail_agent.invoke`, and the
database repository functions `create_workflow_run` /
`update_workflow_status`) are modelled by an `Env` record carrying their
observable outcomes; calls into the run ledger are recorded as an emitted
list of `LedgerEvent`s so that bookkeeping claims can be stated.

Python conventions carried over: an absent `log` key is the empty list
(`state.setdefault("log", [])` makes the two indistinguishable); Python
string truthiness (`if not state.get("raw_input")`, `if run_id:`) is
modelled by an explicit "none or empty string" test; an exception raised
by an external call is `Except.error` carrying the exception repr string.
-/

/-- Shallow embedding of the `task` literal of `AgentState`
(`Literal["process_inbox", "daily_summary"]` in `state_types.py`). -/
inductive TaskKind where
  | process_inbox
  | daily_summary
deriving Repr, DecidableEq

/-- String form of a `TaskKind`, as Python prints the literal. -/
def TaskKind.toStr : TaskKind → String
  | .process_inbox => "process_inbox"
  | .daily_summary => "daily_summary"

/-- Shallow embedding of `AgentState` (`src/graph/state_types.py`).
Absent optional keys are `none`; an absent `log` key is `[]`. -/
structure AgentState where
  raw_input : Option String := none
  task : Option TaskKind := none
  run_id : Option String := none
  emails : List String := []
  result : Option String := none
  log : List String := []
deriving Repr, DecidableEq

/-- Run-ledger calls made by the nodes (`database.repositories`), recorded
as events: `create thread_id task` for `create_workflow_run`, and
`updateStatus run_id status result` for `update_workflow_status`. -/
inductive LedgerEvent where
  | create (thread_id : Option String) (task : String)
  | updateStatus (run_id : String) (status : String) (result : String)
deriving Repr, DecidableEq

/-- Outcomes of the external collaborators for one run:
`fresh_run_id` is the id `create_workflow_run` returns; `agentResult`
maps the message content given to `gmail_agent.invoke` to its result or
to the repr of the exception it raises; `updateOutcome` is whether
`update_workflow_status` returns or raises (repr of the exception). -/
structure Env where
  fresh_run_id : String
  agentResult : String → Except String String
  updateOutcome : Except String Unit

/-- Python string truthiness test used by the nodes: `not state.get(k)`
is true when the value is absent (`None`) or the empty string. -/
def pyFalsyStr : Option String → Bool
  | none => true
  | some t => t == ""

/-- Embedding of `entry_node` (`src/graph/nodes.py`): appends the start
log line, unconditionally calls `create_workflow_run(thread_id=None,
task="unknown")` and stores the returned id in `run_id`, logs the created
run id, and substitutes the default instruction when `raw_input` is falsy.
Returns the updated state with the ledger calls it made. -/
def entry_node (env : Env) (s : AgentState) : AgentState × List LedgerEvent :=
  let s1 := { s with log := s.log ++ ["entry_node: starting"] }
  let rid := env.fresh_run_id
  let s2 := { s1 with
    run_id := some rid
    log := s1.log ++ ["entry_node: created workflow_run run_id=" ++ rid] }
  let s3 :=
    if pyFalsyStr s2.raw_input then
      { s2 with raw_input := some "Process my inbox." }
    else s2
  (s3, [LedgerEvent.create none "unknown"])

/-- Python substring containment `needle in hay` on strings (`str.__contains__`):
true when `needle` occurs contiguously in `hay` at any position. -/
def containsSub (hay needle : String) : Bool :=
  (List.range (hay.toList.length + 1)).any
    (fun i => needle.toList.isPrefixOf (hay.toList.drop i))

/-- Python `str.lower()`: lowercases every character (ASCII-relevant
here). Defined over the character list so it evaluates in the kernel. -/
def strLower (s : String) : String := String.mk (s.data.map Char.toLower)

/-- Embedding of `task_router_node` (`src/graph/nodes.py`): lowercases
`raw_input` (absent treated as the empty string), picks `daily_summary`
when the text contains `"summary"` or `"daily"`, else `process_inbox`,
stores the choice in `task` and logs it. -/
def task_router_node (s : AgentState) : AgentState :=
  let text := strLower (s.raw_input.getD "")
  let task : TaskKind :=
    if containsSub text "summary" || containsSub text "daily" then
      .daily_summary
    else
      .process_inbox
  { s with
    task := some task
    log := s.log ++ ["task_router_node: task set to \x27" ++ task.toStr ++ "\x27"] }

/-- Common tail of the branch nodes (`src/graph/nodes.py`, the
`run_id = state.get("run_id"); if run_id: try: update_workflow_status...`
block, identical in both nodes up to the node name in the log lines):
when `run_id` is truthy the node attempts the terminal status update,
logging success or the caught exception; when falsy it does nothing. -/
def branch_update (nodeName : String) (env : Env) (result : String)
    (s : AgentState) : AgentState × List LedgerEvent :=
  match s.run_id with
  | none => (s, [])
  | some rid =>
    if rid == "" then (s, [])
    else
      match env.updateOutcome with
      | .ok _ =>
        ({ s with log := s.log ++
            [nodeName ++ ": workflow_run " ++ rid ++ " marked as completed"] },
         [LedgerEvent.updateStatus rid "completed" result])
      | .error exc =>
        ({ s with log := s.log ++
            [nodeName ++ ": failed to update workflow status: " ++ exc] },
         [LedgerEvent.updateStatus rid "completed" result])

/-- Instruction template prefix of `process_inbox_node`; the node appends
the user instruction after it. -/
def processInboxPrompt : String :=
  "Task: process_inbox\n\nYour job: Process the Gmail inbox. Fetch unread emails, classify them, ignore spam, apply appropriate labels (e.g., Client, Billing, Personal, Spam), and generate professional replies where needed.\n\nUser instruction: "

/-- Instruction template prefix of `daily_summary_node`; the node appends
the user instruction after it. -/
def dailySummaryPrompt : String :=
  "Task: daily_summary\n\nYour job: Create a concise daily summary of important emails. Highlight key threads, mention the sender and subject briefly, and assign a rough priority (High / Medium / Low) where appropriate.\n\nUser instruction: "

/-- Embedding of `process_inbox_node` (`src/graph/nodes.py`): logs the
invocation, calls `gmail_agent.invoke` with the built message content
(NOT inside any try/except — an exception there propagates out of the
node, hence the `Except` return), stores the result, logs completion,
then runs the guarded best-effort status update. -/
def process_inbox_node (env : Env) (s : AgentState) :
    Except String (AgentState × List LedgerEvent) :=
  let s1 := { s with log := s.log ++ ["process_inbox_node: invoking gmail_agent"] }
  let message_content := processInboxPrompt ++ (s1.raw_input.getD "")
  match env.agentResult message_content with
  | .error e => .error e
  | .ok result =>
    let s2 := { s1 with
      result := some result
      log := s1.log ++ ["process_inbox_node: gmail_agent finished"] }
    .ok (branch_update "process_inbox_node" env result s2)

/-- Embedding of `daily_summary_node` (`src/graph/nodes.py`), identical in
shape to `process_inbox_node` with its own prompt and log strings. -/
def daily_summary_node (env : Env) (s : AgentState) :
    Except String (AgentState × List LedgerEvent) :=
  let s1 := { s with log := s.log ++ ["daily_summary_node: invoking gmail_agent"] }
  let message_content := dailySummaryPrompt ++ (s1.raw_input.getD "")
  match env.agentResult message_content with
  | .error e => .error e
  | .ok result =>
    let s2 := { s1 with
      result := some result
      log := s1.log ++ ["daily_summary_node: gmail_agent finished"] }
    .ok (branch_update "daily_summary_node" env result s2)

/-- Embedding of `route_by_task` (`src/graph/build_graph.py`): returns
`"daily_summary"` when `state.get("task") == "daily_summary"`, else the
default `"process_inbox"` (also when `task` is unset). -/
def route_by_task (s : AgentState) : String :=
  match s.task with
  | some TaskKind.daily_summary => "daily_summary"
  | _ => "process_inbox"

/-- The LangGraph terminal marker `END`. -/
def END_NODE : String := "__end__"

/-- Static shape of a compiled LangGraph: registered node names, the
entry point, unconditional edges, and conditional edge groups
(source together with its label-to-target mapping). -/
structure GraphShape where
  nodes : List String
  entry_point : String
  edges : List (String × String)
  conditional : List (String × List (String × String))

/-- Embedding of the wiring done by `build_app`
(`src/graph/build_graph.py`): four registered nodes, entry point
`"entry"`, the unconditional edges `entry → task_router`,
`process_inbox → END` and `daily_summary → END`, and the single
conditional edge group at `task_router` routed by `route_by_task`. -/
def build_app_graph : GraphShape where
  nodes := ["entry", "task_router", "process_inbox", "daily_summary"]
  entry_point := "entry"
  edges := [("entry", "task_router"),
            ("process_inbox", END_NODE),
            ("daily_summary", END_NODE)]
  conditional := [("task_router",
                   [("process_inbox", "process_inbox"),
                    ("daily_summary", "daily_summary")])]

/-- One full run of the compiled app (`app.invoke` over the graph built in
`build_app`): execute `entry`, then `task_router`, then the branch chosen
by `route_by_task`, then stop at `END`. Accumulates the ledger calls; a
fault escaping a node aborts the run with that fault. -/
def runApp (env : Env) (s0 : AgentState) :
    Except String (AgentState × List LedgerEvent) :=
  let p1 := entry_node env s0
  let s2 := task_router_node p1.fst
  let branch :=
    if route_by_task s2 == "daily_summary" then
      daily_summary_node env s2
    else
      process_inbox_node env s2
  match branch with
  | .error e => .error e
  | .ok p => .ok (p.fst, p1.snd ++ p.snd)

/-- Run-ledger status semantics, Modelled from the spec:
`database/repositories.py` (`create_workflow_run`,
`update_workflow_status`) is not under `src/`; per the spec, `create`
inserts a record with `status = "running"` (also the column default in
`database/models.py`) and `update_status` sets the given status. The
status trace of a run is therefore the statuses its events write, in
order. -/
def ledgerStatusTrace (evs : List LedgerEvent) : List String :=
  evs.map fun e =>
    match e with
    | .create _ _ => "running"
    | .updateStatus _ st _ => st

/-- Predicate: the event is a `create_workflow_run` call. -/
def LedgerEvent.isCreate : LedgerEvent → Bool
  | .create _ _ => true
  | _ => false

/-- Predicate: the event is an `update_workflow_status` call. -/
def LedgerEvent.isUpdateStatus : LedgerEvent → Bool
  | .updateStatus _ _ _ => true
  | _ => false

/-! ## Concrete environments and states used as test inputs -/

/-- Environment in which every external call succeeds. -/
def envAllOk : Env where
  fresh_run_id := "rid-1"
  agentResult := fun _ => .ok "AGENT-OUT"
  updateOutcome := .ok ()

/-- Environment in which the LLM agent call raises. -/
def envExecFail : Env where
  fresh_run_id := "rid-1"
  agentResult := fun _ => .error "RuntimeError(agent boom)"
  updateOutcome := .ok ()

/-- Environment in which the run-ledger status update raises. -/
def envUpdateFail : Env where
  fresh_run_id := "rid-1"
  agentResult := fun _ => .ok "AGENT-OUT"
  updateOutcome := .error "OperationalError(db down)"

/-- A state as it reaches a branch node, with a run id set. -/
def sBranch : AgentState where
  raw_input := some "hi"
  task := some TaskKind.process_inbox
  run_id := some "rid-1"

/-- A state that already carries a run id before the entry node. -/
def sPreassigned : AgentState where
  raw_input := some "x"
  run_id := some "old-rid"

/-- A state reaching a branch node with no run id at all. -/
def sNoRun : AgentState where
  raw_input := some "y"

/-! ## Helper lemmas -/

/-- The Python substring test agrees with list-infix occurrence:
`needle in hay` iff the characters of `needle` occur contiguously
somewhere in `hay`. -/
theorem containsSub_iff (hay needle : String) :
    containsSub hay needle = true ↔ needle.toList <:+: hay.toList := by
  unfold containsSub
  rw [List.any_eq_true]
  constructor
  · rintro ⟨i, _, hpre⟩
    rw [List.isPrefixOf_iff_prefix] at hpre
    obtain ⟨t, ht⟩ := hpre
    exact ⟨hay.toList.take i, t, by
      rw [List.append_assoc, ht, List.take_append_drop]⟩
  · rintro ⟨u, v, huv⟩
    refine ⟨u.length, ?_, ?_⟩
    · rw [List.mem_range]
      have hle : u.length ≤ hay.toList.length := by
        rw [← huv]
        simp [List.length_append]
      omega
    · rw [List.isPrefixOf_iff_prefix, ← huv, List.append_assoc, List.drop_left]
      exact ⟨v, rfl⟩

/-- The task written by the router, in closed form. -/
theorem task_router_task (s : AgentState) :
    (task_router_node s).task =
      some (if containsSub (strLower (s.raw_input.getD "")) "summary"
              || containsSub (strLower (s.raw_input.getD "")) "daily" then
              TaskKind.daily_summary
            else TaskKind.process_inbox) := rfl

/-- The router result is determined by the `task` field. -/
theorem route_by_task_congr (s1 s2 : AgentState) (h : s1.task = s2.task) :
    route_by_task s1 = route_by_task s2 := by
  unfold route_by_task
  rw [h]

/-- The router defaults to the inbox branch on anything other than the
summary kind. -/
theorem route_by_task_default (s : AgentState)
    (h : s.task ≠ some TaskKind.daily_summary) :
    route_by_task s = "process_inbox" := by
  unfold route_by_task
  rcases ht : s.task with _ | t
  · rfl
  · cases t with
    | process_inbox => rfl
    | daily_summary => exact absurd ht h

/-- The router only ever returns the two branch labels. -/
theorem route_by_task_mem (s : AgentState) :
    route_by_task s = "process_inbox" ∨ route_by_task s = "daily_summary" := by
  unfold route_by_task
  rcases s.task with _ | t
  · left; rfl
  · cases t with
    | process_inbox => left; rfl
    | daily_summary => right; rfl

/-- The entry node always stores the freshly created run id. -/
theorem entry_node_run_id (env : Env) (s : AgentState) :
    (entry_node env s).fst.run_id = some env.fresh_run_id := by
  simp only [entry_node]
  split <;> rfl

/-- The entry node emits exactly the one `create` call. -/
theorem entry_node_snd (env : Env) (s : AgentState) :
    (entry_node env s).snd = [LedgerEvent.create none "unknown"] := rfl

/-- The log written by the entry node, in closed form. -/
theorem entry_node_log (env : Env) (s : AgentState) :
    (entry_node env s).fst.log =
      (s.log ++ ["entry_node: starting"])
        ++ ["entry_node: created workflow_run run_id=" ++ env.fresh_run_id] := by
  simp only [entry_node]
  split <;> rfl

/-- The router node keeps `run_id` unchanged. -/
theorem task_router_run_id (s : AgentState) :
    (task_router_node s).run_id = s.run_id := rfl

/-- The router node keeps `raw_input` unchanged. -/
theorem task_router_raw_input (s : AgentState) :
    (task_router_node s).raw_input = s.raw_input := rfl

/-- Unfolding of `process_inbox_node` through the agent-call outcome. -/
theorem process_inbox_node_eq (env : Env) (s : AgentState) :
    process_inbox_node env s =
      match env.agentResult (processInboxPrompt ++ (s.raw_input.getD "")) with
      | .error e => .error e
      | .ok r =>
        .ok (branch_update "process_inbox_node" env r
          { s with result := some r,
                   log := (s.log ++ ["process_inbox_node: invoking gmail_agent"])
                          ++ ["process_inbox_node: gmail_agent finished"] }) := rfl

/-- Unfolding of `daily_summary_node` through the agent-call outcome. -/
theorem daily_summary_node_eq (env : Env) (s : AgentState) :
    daily_summary_node env s =
      match env.agentResult (dailySummaryPrompt ++ (s.raw_input.getD "")) with
      | .error e => .error e
      | .ok r =>
        .ok (branch_update "daily_summary_node" env r
          { s with result := some r,
                   log := (s.log ++ ["daily_summary_node: invoking gmail_agent"])
                          ++ ["daily_summary_node: gmail_agent finished"] }) := rfl

/-- The status-update tail either leaves the state alone or appends one
log line; it never touches any other field. -/
theorem branch_update_fst (n : String) (env : Env) (r : String) (s : AgentState) :
    (branch_update n env r s).fst = s ∨
    ∃ x, (branch_update n env r s).fst = { s with log := s.log ++ [x] } := by
  unfold branch_update
  rcases hrid : s.run_id with _ | rid
  · exact Or.inl rfl
  · simp only
    split
    · exact Or.inl rfl
    · cases h2 : env.updateOutcome with
      | ok v => exact Or.inr ⟨_, rfl⟩
      | error e => exact Or.inr ⟨_, rfl⟩

/-- With a falsy `run_id` the status-update tail does nothing at all. -/
theorem branch_update_falsy (n : String) (env : Env) (r : String)
    (s : AgentState) (h : s.run_id = none ∨ s.run_id = some "") :
    branch_update n env r s = (s, []) := by
  unfold branch_update
  rcases h with h | h <;> rw [h]
  rfl

/-- With a truthy `run_id` the status-update tail emits exactly one
`update_workflow_status(run_id, "completed", result)` call. -/
theorem branch_update_truthy_snd (n : String) (env : Env) (r : String)
    (s : AgentState) (rid : String) (h : s.run_id = some rid) (hne : rid ≠ "") :
    (branch_update n env r s).snd = [LedgerEvent.updateStatus rid "completed" r] := by
  simp only [branch_update, h]
  rw [if_neg (by simpa using hne)]
  cases h2 : env.updateOutcome with
  | ok v => rfl
  | error e => rfl

/-- When the status update raises, the tail logs the caught exception and
still returns, with the update call recorded as attempted. -/
theorem branch_update_err (n : String) (env : Env) (r : String)
    (s : AgentState) (rid exc : String) (h : s.run_id = some rid)
    (hne : rid ≠ "") (hupd : env.updateOutcome = Except.error exc) :
    branch_update n env r s =
      ({ s with log := s.log ++ [n ++ ": failed to update workflow status: " ++ exc] },
       [LedgerEvent.updateStatus rid "completed" r]) := by
  simp only [branch_update, h]
  rw [if_neg (by simpa using hne)]
  rw [hupd]

/-- Inversion for a normally returning `process_inbox_node`. -/
theorem process_inbox_node_ok_inv (env : Env) (s out : AgentState)
    (evs : List LedgerEvent)
    (h : process_inbox_node env s = Except.ok (out, evs)) :
    ∃ r, env.agentResult (processInboxPrompt ++ (s.raw_input.getD "")) = Except.ok r ∧
      (out, evs) = branch_update "process_inbox_node" env r
        { s with result := some r,
                 log := (s.log ++ ["process_inbox_node: invoking gmail_agent"])
                        ++ ["process_inbox_node: gmail_agent finished"] } := by
  rw [process_inbox_node_eq] at h
  cases hagent : env.agentResult (processInboxPrompt ++ (s.raw_input.getD "")) with
  | error e => rw [hagent] at h; simp at h
  | ok r =>
    rw [hagent] at h
    rw [Except.ok.injEq] at h
    exact ⟨r, rfl, h.symm⟩

/-- Inversion for a normally returning `daily_summary_node`. -/
theorem daily_summary_node_ok_inv (env : Env) (s out : AgentState)
    (evs : List LedgerEvent)
    (h : daily_summary_node env s = Except.ok (out, evs)) :
    ∃ r, env.agentResult (dailySummaryPrompt ++ (s.raw_input.getD "")) = Except.ok r ∧
      (out, evs) = branch_update "daily_summary_node" env r
        { s with result := some r,
                 log := (s.log ++ ["daily_summary_node: invoking gmail_agent"])
                        ++ ["daily_summary_node: gmail_agent finished"] } := by
  rw [daily_summary_node_eq] at h
  cases hagent : env.agentResult (dailySummaryPrompt ++ (s.raw_input.getD "")) with
  | error e => rw [hagent] at h; simp at h
  | ok r =>
    rw [hagent] at h
    rw [Except.ok.injEq] at h
    exact ⟨r, rfl, h.symm⟩

/-- Forward form: output of `process_inbox_node` on a successful agent
call. -/
theorem process_inbox_node_ok (env : Env) (s : AgentState) (r : String)
    (h : env.agentResult (processInboxPrompt ++ (s.raw_input.getD ""))
      = Except.ok r) :
    process_inbox_node env s = Except.ok
      (branch_update "process_inbox_node" env r
        { s with result := some r,
                 log := (s.log ++ ["process_inbox_node: invoking gmail_agent"])
                        ++ ["process_inbox_node: gmail_agent finished"] }) := by
  rw [process_inbox_node_eq, h]

/-- Forward form: output of `daily_summary_node` on a successful agent
call. -/
theorem daily_summary_node_ok (env : Env) (s : AgentState) (r : String)
    (h : env.agentResult (dailySummaryPrompt ++ (s.raw_input.getD ""))
      = Except.ok r) :
    daily_summary_node env s = Except.ok
      (branch_update "daily_summary_node" env r
        { s with result := some r,
                 log := (s.log ++ ["daily_summary_node: invoking gmail_agent"])
                        ++ ["daily_summary_node: gmail_agent finished"] }) := by
  rw [daily_summary_node_eq, h]

/-- A branch node returns normally whenever the agent call does. -/
theorem process_inbox_node_isOk (env : Env) (s : AgentState)
    (h : (env.agentResult (processInboxPrompt ++ (s.raw_input.getD ""))).isOk = true) :
    (process_inbox_node env s).isOk = true := by
  rw [process_inbox_node_eq]
  cases hagent : env.agentResult (processInboxPrompt ++ (s.raw_input.getD "")) with
  | error e => rw [hagent] at h; simp [Except.isOk, Except.toBool] at h
  | ok r => rfl

/-- A branch node returns normally whenever the agent call does. -/
theorem daily_summary_node_isOk (env : Env) (s : AgentState)
    (h : (env.agentResult (dailySummaryPrompt ++ (s.raw_input.getD ""))).isOk = true) :
    (daily_summary_node env s).isOk = true := by
  rw [daily_summary_node_eq]
  cases hagent : env.agentResult (dailySummaryPrompt ++ (s.raw_input.getD "")) with
  | error e => rw [hagent] at h; simp [Except.isOk, Except.toBool] at h
  | ok r => rfl

/-- The status-update tail keeps `run_id` unchanged. -/
theorem branch_update_fst_run_id (n : String) (env : Env) (r : String)
    (s : AgentState) : (branch_update n env r s).fst.run_id = s.run_id := by
  rcases branch_update_fst n env r s with h | ⟨x, h⟩ <;> rw [h]

/-- The status-update tail only appends to the log. -/
theorem branch_update_log_grows (n : String) (env : Env) (r : String)
    (s : AgentState) : s.log <+: (branch_update n env r s).fst.log := by
  rcases branch_update_fst n env r s with h | ⟨x, h⟩
  · rw [h]
  · rw [h]
    exact List.prefix_append _ _

/-- With a falsy `raw_input` the entry node substitutes the default
instruction string. -/
theorem entry_node_raw_input_default (env : Env) (s : AgentState)
    (h : pyFalsyStr s.raw_input = true) :
    (entry_node env s).fst.raw_input = some "Process my inbox." := by
  simp only [entry_node]
  rw [if_pos h]

/-- When every agent call succeeds, a full run returns normally. -/
theorem runApp_isOk (env : Env) (s0 : AgentState)
    (hexec : ∀ m, (env.agentResult m).isOk = true) :
    (runApp env s0).isOk = true := by
  unfold runApp
  simp only
  have hbr : (if route_by_task (task_router_node (entry_node env s0).fst) == "daily_summary" then
      daily_summary_node env (task_router_node (entry_node env s0).fst)
    else
      process_inbox_node env (task_router_node (entry_node env s0).fst)).isOk = true := by
    split
    · exact daily_summary_node_isOk env _ (hexec _)
    · exact process_inbox_node_isOk env _ (hexec _)
  split
  · rename_i e heq
    rw [heq] at hbr
    simp [Except.isOk, Except.toBool] at hbr
  · rfl

/-! ## Claim theorems -/

/-- C1: for every input state, the classification node sets `task` to
`daily_summary` iff the lowercased `raw_input` (absent read as the empty
string) contains `"summary"` or `"daily"` at any position, sets
`process_inbox` otherwise (the result is always one of the two), and the
decision depends on `raw_input` alone. -/
theorem C1_classification (s : AgentState) :
    (((task_router_node s).task = some TaskKind.daily_summary) ↔
      ("summary".toList <:+: (strLower (s.raw_input.getD "")).toList ∨
       "daily".toList <:+: (strLower (s.raw_input.getD "")).toList))
    ∧ ((task_router_node s).task = some TaskKind.daily_summary ∨
       (task_router_node s).task = some TaskKind.process_inbox)
    ∧ (∀ s2 : AgentState, s2.raw_input = s.raw_input →
        (task_router_node s2).task = (task_router_node s).task) := by
  refine ⟨?_, ?_, ?_⟩
  · rw [task_router_task]
    by_cases h : (containsSub (strLower (s.raw_input.getD "")) "summary"
        || containsSub (strLower (s.raw_input.getD "")) "daily") = true
    · rw [if_pos h]
      rw [Bool.or_eq_true] at h
      refine ⟨fun _ => ?_, fun _ => rfl⟩
      rcases h with h1 | h1
      · exact Or.inl ((containsSub_iff _ _).mp h1)
      · exact Or.inr ((containsSub_iff _ _).mp h1)
    · rw [if_neg h]
      refine ⟨fun hcontra => absurd hcontra (by simp), fun hinf => ?_⟩
      exfalso
      apply h
      rw [Bool.or_eq_true]
      rcases hinf with h1 | h1
      · exact Or.inl ((containsSub_iff _ _).mpr h1)
      · exact Or.inr ((containsSub_iff _ _).mpr h1)
  · rw [task_router_task]
    split
    · left; rfl
    · right; rfl
  · intro s2 h
    rw [task_router_task, task_router_task, h]

/-- C1 witness: a concrete input containing "DAILY" is classified as the
summary kind. -/
theorem C1_classification_witness :
    (task_router_node { raw_input := some "Give me a DAILY Summary" }).task
      = some TaskKind.daily_summary :=
  (C1_classification { raw_input := some "Give me a DAILY Summary" }).1.mpr
    (Or.inr ((containsSub_iff _ _).mp (by decide)))

/-- C5: the router is a pure total function of `task` only — states
agreeing on `task` route identically; every state whose `task` is not the
summary kind (unset included) routes to the default `process_inbox`; and
the result is always one of the two branch labels. -/
theorem C5_router_pure_total_default :
    (∀ s1 s2 : AgentState, s1.task = s2.task →
      route_by_task s1 = route_by_task s2)
    ∧ (∀ s : AgentState, s.task ≠ some TaskKind.daily_summary →
        route_by_task s = "process_inbox")
    ∧ (∀ s : AgentState,
        route_by_task s = "process_inbox" ∨ route_by_task s = "daily_summary") :=
  ⟨route_by_task_congr, route_by_task_default, route_by_task_mem⟩

/-- C5 witness: at a concrete state with `task` unset, the router returns
the default branch. -/
theorem C5_router_pure_total_default_witness :
    route_by_task { task := none } = "process_inbox" :=
  C5_router_pure_total_default.2.1 { task := none } (by simp)

/-- C6: the compiled graph is exactly the fixed state machine — entry
point `entry`; unconditional edges `entry → task_router`,
`process_inbox → END` and `daily_summary → END` and no others; one single
conditional edge group, at `task_router`, mapping the two branch labels
to the two branch nodes; the router only produces those two labels; and
the terminal marker is the source of no edge, conditional or not. -/
theorem C6_graph_shape :
    build_app_graph.entry_point = "entry"
    ∧ build_app_graph.edges = [("entry", "task_router"),
        ("process_inbox", END_NODE), ("daily_summary", END_NODE)]
    ∧ build_app_graph.conditional = [("task_router",
        [("process_inbox", "process_inbox"),
         ("daily_summary", "daily_summary")])]
    ∧ build_app_graph.edges.all (fun e => e.1 != END_NODE) = true
    ∧ build_app_graph.conditional.all (fun c => c.1 != END_NODE) = true
    ∧ (∀ s : AgentState,
        route_by_task s = "process_inbox" ∨ route_by_task s = "daily_summary") :=
  ⟨rfl, rfl, rfl, by decide, by decide, route_by_task_mem⟩

/-- C2 counterexample: with an executor that raises, `process_inbox_node`
does not catch the failure and does not return normally — the exception
escapes the node, and the whole run aborts with it instead of reaching
the terminal marker. -/
theorem C2_counterexample :
    process_inbox_node envExecFail sBranch
      = Except.error "RuntimeError(agent boom)"
    ∧ runApp envExecFail { raw_input := some "hi" }
      = Except.error "RuntimeError(agent boom)" := ⟨rfl, rfl⟩

/-- C2 (amended): an executor failure inside a branch node is NOT caught
locally — it propagates out of the node unchanged (only the RunRecord
status update is guarded by try/except). -/
theorem C2_executor_fault_propagates (env : Env) (s : AgentState) (e : String) :
    (env.agentResult (processInboxPrompt ++ (s.raw_input.getD ""))
        = Except.error e →
      process_inbox_node env s = Except.error e)
    ∧ (env.agentResult (dailySummaryPrompt ++ (s.raw_input.getD ""))
        = Except.error e →
      daily_summary_node env s = Except.error e) := by
  constructor
  · intro h
    rw [process_inbox_node_eq, h]
  · intro h
    rw [daily_summary_node_eq, h]

/-- C2 witness: the amended propagation fact at a concrete failing
environment and state. -/
theorem C2_executor_fault_propagates_witness :
    process_inbox_node envExecFail { raw_input := some "x" }
      = Except.error "RuntimeError(agent boom)" :=
  (C2_executor_fault_propagates envExecFail { raw_input := some "x" }
    "RuntimeError(agent boom)").1 rfl

/-- C4 counterexample: a state entering `entry_node` with `run_id`
already set to `"old-rid"` leaves it with the freshly created
`"rid-1"` — the present run id IS overwritten. -/
theorem C4_counterexample :
    sPreassigned.run_id = some "old-rid"
    ∧ (entry_node envAllOk sPreassigned).fst.run_id = some "rid-1"
    ∧ (entry_node envAllOk sPreassigned).fst.run_id ≠ sPreassigned.run_id := by
  refine ⟨rfl, ?_, ?_⟩ <;> decide

/-- C4 (amended): the entry node unconditionally creates a RunRecord and
overwrites `run_id` with the fresh id, whether or not one was present;
the router and branch nodes never write `run_id`. -/
theorem C4_run_id_policy (env : Env) (s : AgentState) :
    (entry_node env s).fst.run_id = some env.fresh_run_id
    ∧ (entry_node env s).snd = [LedgerEvent.create none "unknown"]
    ∧ (task_router_node s).run_id = s.run_id
    ∧ (∀ out evs, process_inbox_node env s = Except.ok (out, evs) →
        out.run_id = s.run_id)
    ∧ (∀ out evs, daily_summary_node env s = Except.ok (out, evs) →
        out.run_id = s.run_id) := by
  refine ⟨entry_node_run_id env s, entry_node_snd env s, rfl, ?_, ?_⟩
  · intro out evs h
    obtain ⟨r, hagent, hpair⟩ := process_inbox_node_ok_inv env s out evs h
    exact (congrArg (fun p => p.fst.run_id) hpair).trans
      (branch_update_fst_run_id _ env r _)
  · intro out evs h
    obtain ⟨r, hagent, hpair⟩ := daily_summary_node_ok_inv env s out evs h
    exact (congrArg (fun p => p.fst.run_id) hpair).trans
      (branch_update_fst_run_id _ env r _)

/-- C4 witness: the amended facts at a concrete state carrying an old
run id. -/
theorem C4_run_id_policy_witness :
    (entry_node envAllOk sPreassigned).fst.run_id = some "rid-1"
    ∧ (task_router_node sPreassigned).run_id = some "old-rid" :=
  ⟨(C4_run_id_policy envAllOk sPreassigned).1,
   (C4_run_id_policy envAllOk sPreassigned).2.2.1⟩

/-- C7: when the terminal RunRecord status update raises, the branch node
appends the failure entry to the log and still returns normally, with the
already-produced result intact in the returned state (shown for both
branch nodes, by the exact output state). -/
theorem C7_persistence_fault_absorbed (env : Env) (s : AgentState)
    (rid e r : String) (hrid : s.run_id = some rid) (hne : rid ≠ "")
    (hupd : env.updateOutcome = Except.error e) :
    (env.agentResult (processInboxPrompt ++ (s.raw_input.getD ""))
        = Except.ok r →
      process_inbox_node env s = Except.ok
        ({ s with result := some r,
                  log := s.log ++ ["process_inbox_node: invoking gmail_agent"]
                         ++ ["process_inbox_node: gmail_agent finished"]
                         ++ ["process_inbox_node: failed to update workflow status: " ++ e] },
         [LedgerEvent.updateStatus rid "completed" r]))
    ∧ (env.agentResult (dailySummaryPrompt ++ (s.raw_input.getD ""))
        = Except.ok r →
      daily_summary_node env s = Except.ok
        ({ s with result := some r,
                  log := s.log ++ ["daily_summary_node: invoking gmail_agent"]
                         ++ ["daily_summary_node: gmail_agent finished"]
                         ++ ["daily_summary_node: failed to update workflow status: " ++ e] },
         [LedgerEvent.updateStatus rid "completed" r])) := by
  constructor
  · intro h
    rw [process_inbox_node_ok env s r h]
    rw [branch_update_err "process_inbox_node" env r
        { s with result := some r,
                 log := (s.log ++ ["process_inbox_node: invoking gmail_agent"])
                        ++ ["process_inbox_node: gmail_agent finished"] }
        rid e hrid hne hupd]
    rfl
  · intro h
    rw [daily_summary_node_ok env s r h]
    rw [branch_update_err "daily_summary_node" env r
        { s with result := some r,
                 log := (s.log ++ ["daily_summary_node: invoking gmail_agent"])
                        ++ ["daily_summary_node: gmail_agent finished"] }
        rid e hrid hne hupd]
    rfl

/-- C7 witness: the exact surviving output at a concrete environment
whose status update raises. -/
theorem C7_persistence_fault_absorbed_witness :
    process_inbox_node envUpdateFail sBranch = Except.ok
      ({ sBranch with result := some "AGENT-OUT",
                      log := sBranch.log
                             ++ ["process_inbox_node: invoking gmail_agent"]
                             ++ ["process_inbox_node: gmail_agent finished"]
                             ++ ["process_inbox_node: failed to update workflow status: "
                                 ++ "OperationalError(db down)"] },
       [LedgerEvent.updateStatus "rid-1" "completed" "AGENT-OUT"]) :=
  (C7_persistence_fault_absorbed envUpdateFail sBranch "rid-1"
    "OperationalError(db down)" "AGENT-OUT" rfl (by decide) rfl).1 rfl

/-- C8: when the initial `raw_input` is absent or empty, the entry node
substitutes the documented default instruction "Process my inbox.", and
(provided the executor calls return) the run still reaches the terminal
marker, returning a final state. -/
theorem C8_default_substitution (env : Env) (s : AgentState)
    (hraw : s.raw_input = none ∨ s.raw_input = some "")
    (hexec : ∀ m, (env.agentResult m).isOk = true) :
    (entry_node env s).fst.raw_input = some "Process my inbox."
    ∧ (runApp env s).isOk = true := by
  refine ⟨?_, runApp_isOk env s hexec⟩
  apply entry_node_raw_input_default
  rcases hraw with h | h <;> rw [h] <;> rfl

/-- C8 witness: a concrete run from an absent `raw_input`. -/
theorem C8_default_substitution_witness :
    (entry_node envAllOk { }).fst.raw_input = some "Process my inbox."
    ∧ (runApp envAllOk { }).isOk = true :=
  C8_default_substitution envAllOk { } (Or.inl rfl) (fun _ => rfl)

/-- C9: every node of the graph only appends to `log` — the output log of
each node extends the input log as a prefix (for the branch nodes, on
every normal return), so log length never decreases within a run. -/
theorem C9_log_append_only (env : Env) (s : AgentState) :
    s.log <+: (entry_node env s).fst.log
    ∧ s.log <+: (task_router_node s).log
    ∧ (∀ out evs, process_inbox_node env s = Except.ok (out, evs) →
        s.log <+: out.log)
    ∧ (∀ out evs, daily_summary_node env s = Except.ok (out, evs) →
        s.log <+: out.log) := by
  refine ⟨?_, ?_, ?_, ?_⟩
  · rw [entry_node_log]
    exact (List.prefix_append _ _).trans (List.prefix_append _ _)
  · exact List.prefix_append _ _
  · intro out evs h
    obtain ⟨r, hagent, hpair⟩ := process_inbox_node_ok_inv env s out evs h
    have hout : out = (branch_update "process_inbox_node" env r
        { s with result := some r,
                 log := (s.log ++ ["process_inbox_node: invoking gmail_agent"])
                        ++ ["process_inbox_node: gmail_agent finished"] }).fst :=
      congrArg Prod.fst hpair
    rw [hout]
    refine List.IsPrefix.trans ?_ (branch_update_log_grows "process_inbox_node" env r _)
    exact (List.prefix_append _ _).trans (List.prefix_append _ _)
  · intro out evs h
    obtain ⟨r, hagent, hpair⟩ := daily_summary_node_ok_inv env s out evs h
    have hout : out = (branch_update "daily_summary_node" env r
        { s with result := some r,
                 log := (s.log ++ ["daily_summary_node: invoking gmail_agent"])
                        ++ ["daily_summary_node: gmail_agent finished"] }).fst :=
      congrArg Prod.fst hpair
    rw [hout]
    refine List.IsPrefix.trans ?_ (branch_update_log_grows "daily_summary_node" env r _)
    exact (List.prefix_append _ _).trans (List.prefix_append _ _)

/-- C9 witness: the prefix property at a concrete state with a
pre-existing log. -/
theorem C9_log_append_only_witness :
    ["old-line"] <+: (entry_node envAllOk { log := ["old-line"] }).fst.log :=
  (C9_log_append_only envAllOk { log := ["old-line"] }).1

/-- C10: a state reaching a branch node with `run_id` absent (or empty)
still invokes the executor, stores the result, appends both log entries
and returns normally, but emits NO run-ledger call — the terminal status
update is silently skipped (shown for both branch nodes, by the exact
output). -/
theorem C10_falsy_run_id_skips_ledger (env : Env) (s : AgentState)
    (r : String) (hrid : s.run_id = none ∨ s.run_id = some "") :
    (env.agentResult (processInboxPrompt ++ (s.raw_input.getD ""))
        = Except.ok r →
      process_inbox_node env s = Except.ok
        ({ s with result := some r,
                  log := s.log ++ ["process_inbox_node: invoking gmail_agent"]
                         ++ ["process_inbox_node: gmail_agent finished"] }, []))
    ∧ (env.agentResult (dailySummaryPrompt ++ (s.raw_input.getD ""))
        = Except.ok r →
      daily_summary_node env s = Except.ok
        ({ s with result := some r,
                  log := s.log ++ ["daily_summary_node: invoking gmail_agent"]
                         ++ ["daily_summary_node: gmail_agent finished"] }, [])) := by
  constructor
  · intro h
    rw [process_inbox_node_ok env s r h]
    rw [branch_update_falsy "process_inbox_node" env r
        { s with result := some r,
                 log := (s.log ++ ["process_inbox_node: invoking gmail_agent"])
                        ++ ["process_inbox_node: gmail_agent finished"] }
        hrid]
  · intro h
    rw [daily_summary_node_ok env s r h]
    rw [branch_update_falsy "daily_summary_node" env r
        { s with result := some r,
                 log := (s.log ++ ["daily_summary_node: invoking gmail_agent"])
                        ++ ["daily_summary_node: gmail_agent finished"] }
        hrid]

/-- C10 witness: the exact output at a concrete run-id-less state. -/
theorem C10_falsy_run_id_skips_ledger_witness :
    process_inbox_node envAllOk sNoRun = Except.ok
      ({ sNoRun with result := some "AGENT-OUT",
                     log := sNoRun.log
                            ++ ["process_inbox_node: invoking gmail_agent"]
                            ++ ["process_inbox_node: gmail_agent finished"] }, []) :=
  (C10_falsy_run_id_skips_ledger envAllOk sNoRun "AGENT-OUT" (Or.inl rfl)).1 rfl

/-- C3: every completed run makes exactly one `create` call and exactly
one terminal `update_status` call on the run ledger, and the recorded
status trace is exactly `running` then `completed` — it never returns to
`running` and never moves between terminal values. (Requires the created
run id to be non-empty, as the UUIDs produced by the ledger are.) -/
theorem C3_ledger_lifecycle (env : Env) (s0 sF : AgentState)
    (evs : List LedgerEvent) (hfresh : env.fresh_run_id ≠ "")
    (hrun : runApp env s0 = Except.ok (sF, evs)) :
    evs.countP LedgerEvent.isCreate = 1
    ∧ evs.countP LedgerEvent.isUpdateStatus = 1
    ∧ ledgerStatusTrace evs = ["running", "completed"] := by
  have hrid2 : (task_router_node (entry_node env s0).fst).run_id
      = some env.fresh_run_id := by
    rw [task_router_run_id, entry_node_run_id]
  simp only [runApp] at hrun
  cases hb : (if route_by_task (task_router_node (entry_node env s0).fst)
        == "daily_summary" then
      daily_summary_node env (task_router_node (entry_node env s0).fst)
    else
      process_inbox_node env (task_router_node (entry_node env s0).fst)) with
  | error e =>
    rw [hb] at hrun
    simp at hrun
  | ok p =>
    rw [hb] at hrun
    simp only [Except.ok.injEq, Prod.mk.injEq] at hrun
    obtain ⟨h1, h2⟩ := hrun
    have hevs : evs = (entry_node env s0).snd ++ p.snd := h2.symm
    rw [entry_node_snd] at hevs
    have hp : ∃ r,
        p.snd = [LedgerEvent.updateStatus env.fresh_run_id "completed" r] := by
      split at hb
      · obtain ⟨r, hagent, hpair⟩ :=
          daily_summary_node_ok_inv env _ p.fst p.snd hb
        exact ⟨r, (congrArg Prod.snd hpair).trans
          (branch_update_truthy_snd "daily_summary_node" env r _
            env.fresh_run_id hrid2 hfresh)⟩
      · obtain ⟨r, hagent, hpair⟩ :=
          process_inbox_node_ok_inv env _ p.fst p.snd hb
        exact ⟨r, (congrArg Prod.snd hpair).trans
          (branch_update_truthy_snd "process_inbox_node" env r _
            env.fresh_run_id hrid2 hfresh)⟩
    obtain ⟨r, hpsnd⟩ := hp
    rw [hpsnd] at hevs
    subst hevs
    refine ⟨?_, ?_, ?_⟩ <;>
      simp [List.countP_cons, List.countP_nil, LedgerEvent.isCreate,
        LedgerEvent.isUpdateStatus, ledgerStatusTrace]

/-- C3 witness: the event trace of a concrete successful run. -/
theorem C3_ledger_lifecycle_witness :
    ([LedgerEvent.create none "unknown",
      LedgerEvent.updateStatus "rid-1" "completed" "AGENT-OUT"].countP
        LedgerEvent.isCreate = 1)
    ∧ ([LedgerEvent.create none "unknown",
        LedgerEvent.updateStatus "rid-1" "completed" "AGENT-OUT"].countP
          LedgerEvent.isUpdateStatus = 1)
    ∧ ledgerStatusTrace
        [LedgerEvent.create none "unknown",
         LedgerEvent.updateStatus "rid-1" "completed" "AGENT-OUT"]
        = ["running", "completed"] :=
  C3_ledger_lifecycle envAllOk { }
    { raw_input := some "Process my inbox.",
      task := some TaskKind.process_inbox,
      run_id := some "rid-1",
      emails := [],
      result := some "AGENT-OUT",
      log := ["entry_node: starting",
              "entry_node: created workflow_run run_id=rid-1",
              "task_router_node: task set to \x27process_inbox\x27",
              "process_inbox_node: invoking gmail_agent",
              "process_inbox_node: gmail_agent finished",
              "process_inbox_node: workflow_run rid-1 marked as completed"] }
    [LedgerEvent.create none "unknown",
     LedgerEvent.updateStatus "rid-1" "completed" "AGENT-OUT"]
    (by decide) (by rfl)
